import Mathlib

/-!
Shallow embedding of `modernScript.py`, a screen-monitor script that
captures screen regions, scores them against a reference image with a
normalized inverse-MSE metric, and plays an audio alert subject to a
cooldown.  Machine reals (numpy float64) are modelled by `ℚ`; uint8
pixel grids by lists of natural-number channel triples.
-/

namespace ModernScript

/-- `CHECK_INTERVAL = 2` (modernScript.py line 12), seconds between cycles. -/
def CHECK_INTERVAL : ℚ := 2

/-- `COOLDOWN_PERIOD = 20` (modernScript.py line 13), seconds between alerts. -/
def COOLDOWN_PERIOD : ℚ := 20

/-- `SIMILARITY_THRESHOLD = 0.98` (modernScript.py line 14). -/
def SIMILARITY_THRESHOLD : ℚ := 98 / 100

/-- A 3-channel 8-bit pixel in OpenCV's BGR channel order: `(B, G, R)`.
Channel values of valid images lie in `[0, 255]`. -/
abbrev Pixel := Nat × Nat × Nat

/-- A pixel grid: a list of rows of BGR pixels (numpy array of shape `(h, w, 3)`). -/
abbrev Img := List (List Pixel)

/-- A single-channel grid, the result of grayscale conversion. -/
abbrev GrayImg := List (List Nat)

/-- Number of rows (`img.shape[0]`). -/
def height (img : Img) : Nat := img.length

/-- Number of columns (`img.shape[1]`): the length of the first row. -/
def width (img : Img) : Nat := (img.headD []).length

/-- The `(h, w)` part of `img.shape`; both images at the comparison site are
3-channel, so equality of full numpy shapes reduces to equality of `(h, w)`. -/
def shape (img : Img) : Nat × Nat := (height img, width img)

/-- Total element count of a single-channel grid (the divisor of `np.mean`). -/
def pixelCount {α : Type} (g : List (List α)) : Nat := (g.map List.length).sum

/-- OpenCV's fixed-point `cv2.COLOR_BGR2GRAY` for uint8:
`Y = (1868*B + 9617*G + 4899*R + 8192) >> 14` (the coefficients are
`0.114, 0.587, 0.299` scaled by `2^14` and rounded). -/
def bgr2gray (p : Pixel) : Nat :=
  (1868 * p.1 + 9617 * p.2.1 + 4899 * p.2.2 + 8192) / 16384

/-- `cv2.cvtColor(img, cv2.COLOR_BGR2GRAY)` applied elementwise. -/
def grayImg (img : Img) : GrayImg := img.map (fun row => row.map bgr2gray)

/-- Sum of squared differences along one row, over `ℚ`
(`(gray1.astype(float) - gray2.astype(float)) ** 2` on one row). -/
def sqDiffRow (r1 r2 : List Nat) : ℚ :=
  (List.zipWith (fun (a b : Nat) => ((a : ℚ) - (b : ℚ)) ^ 2) r1 r2).sum

/-- Sum of squared differences over the whole grids. -/
def sqDiffSum (g1 g2 : GrayImg) : ℚ :=
  (List.zipWith sqDiffRow g1 g2).sum

/-- `np.mean((gray1.astype(float) - gray2.astype(float)) ** 2)`
(modernScript.py line 87): total squared difference divided by the element
count of the (equal-shaped) grids. -/
def mse (g1 g2 : GrayImg) : ℚ := sqDiffSum g1 g2 / (pixelCount g1 : ℚ)

/-- The type of the resize operation `cv2.resize(img, (w, h))`: the library's
interpolation is external to the script, so it is a parameter; arguments are
the image and the target `(h, w)` shape. -/
abbrev Resize := Img → Nat × Nat → Img

/-- `compare_images(img1, img2)` (modernScript.py lines 79-92): when the shapes
differ, `img2` (the second argument; the reference at the call site) is resized
to `img1`'s dimensions; both are converted to grayscale; the similarity is
`1 - mse / max_mse` with `max_mse = 255 ** 2 = 65025`. -/
def compare_images (resize : Resize) (img1 img2 : Img) : ℚ :=
  let img2r := if shape img1 = shape img2 then img2 else resize img2 (shape img1)
  let gray1 := grayImg img1
  let gray2 := grayImg img2r
  1 - mse gray1 gray2 / 65025

/-- Modelled from the spec (section 4.3 Similarity Scorer): "If their dimensions
differ, the reference is resized ... to the candidate's dimensions. Both grids
are converted to grayscale intensity.
Score = 1 - mean((gray_candidate - gray_reference)^2) / 65025."
Written independently of `compare_images`: the squared differences are
flattened into one list and averaged directly. -/
def scorerSpec (resize : Resize) (cand ref : Img) : ℚ :=
  let refr := if shape cand = shape ref then ref else resize ref (shape cand)
  let diffs :=
    (List.zipWith
      (fun r1 r2 => List.zipWith (fun (a b : Nat) => ((a : ℚ) - (b : ℚ)) ^ 2) r1 r2)
      (grayImg cand) (grayImg refr)).flatten
  1 - (diffs.sum / (pixelCount (grayImg cand) : ℚ)) / 65025

/-- A raw decode result of `cv2.imread(..., cv2.IMREAD_UNCHANGED)` before
channel normalization: `channels` is `img.shape[2]`, each pixel a list of
channel values. -/
structure RawImg where
  channels : Nat
  data : List (List (List Nat))

/-- `cv2.cvtColor(img, cv2.COLOR_BGRA2BGR)`: keep channels 0, 1, 2 (B, G, R)
of a 4-channel image, dropping alpha. -/
def cvtColorBGRA2BGR (raw : RawImg) : Img :=
  raw.data.map (fun row => row.map (fun p => (p.getD 0 0, p.getD 1 0, p.getD 2 0)))

/-- Reinterpret an already-3-channel decode result as a BGR pixel grid
(the identity on the underlying data). -/
def castBGR (raw : RawImg) : Img :=
  raw.data.map (fun row => row.map (fun p => (p.getD 0 0, p.getD 1 0, p.getD 2 0)))

/-- Possible outcomes of `load_reference_image` (modernScript.py lines 24-35).
`fileNotFoundError` is the `FileNotFoundError` raised when the path does not
exist; `noneTypeAttributeError` is the unguarded `AttributeError` raised by
`img.shape` when `cv2.imread` returns `None` (file present but undecodable). -/
inductive RefLoadOutcome where
  | fileNotFoundError (msg : String)
  | noneTypeAttributeError
  | ok (img : Img)
deriving DecidableEq

/-- `load_reference_image()` (modernScript.py lines 24-35).  `refExists` models
`ref_path.exists()`; `imreadResult` models `cv2.imread`, which returns `None`
(here `Option.none`) when the file cannot be decoded.  When the decode result
has 4 channels the alpha channel is dropped. -/
def load_reference_image (refExists : Bool) (imreadResult : Option RawImg) :
    RefLoadOutcome :=
  if refExists = false then
    RefLoadOutcome.fileNotFoundError "Reference image not found"
  else
    match imreadResult with
    | none => RefLoadOutcome.noneTypeAttributeError
    | some raw =>
        RefLoadOutcome.ok (if raw.channels = 4 then cvtColorBGRA2BGR raw else castBGR raw)

/-- Result of `subprocess.run(['grim', ...], capture_output=True, check=True)`:
exit status, stdout bytes, stderr text. -/
structure SubprocResult where
  returncode : Int
  stdout : List Nat
  stderr : String

/-- `capture_region_linux(region)` (modernScript.py lines 46-68), with the
external image decoder `cv2.imdecode` as a parameter (it returns `None`, here
`Option.none`, when the bytes do not decode).  `check=True` makes
`subprocess.run` raise `CalledProcessError` exactly when the exit status is
non-zero; that exception is re-raised as `RuntimeError("grim failed: ...")`.
On a zero exit the decode result is returned as-is, even when it is `None`. -/
def capture_region_linux (imdecode : List Nat → Option Img) (res : SubprocResult) :
    Except String (Option Img) :=
  if res.returncode ≠ 0 then
    Except.error
      ("grim failed: " ++ (if res.stderr = "" then "No error message" else res.stderr))
  else
    Except.ok (imdecode res.stdout)

/-- Observable events of one run of `main()` (prints and audio playback). -/
inductive Event where
  | loadError
  | scored (idx : Nat) (score : ℚ)
  | regionError (idx : Nat)
  | audioPlayed
  | cooldownActive (remaining : Int)
deriving DecidableEq

/-- Python's `int()` on a rational value: truncation toward zero. -/
def pyInt (q : ℚ) : Int := if 0 ≤ q then Int.floor q else -Int.floor (-q)

/-- The alert step of the loop body (modernScript.py lines 152-160): given
whether any region matched this cycle, the current time and `last_audio_time`,
return `(played, newLastAudioTime, cooldownReport)`.  Audio plays iff a match
occurred and `now - last >= COOLDOWN_PERIOD`; only then is the timestamp
updated; otherwise the remaining seconds `int(COOLDOWN_PERIOD - (now - last))`
are reported. -/
def maybeAlert (matchFound : Bool) (now last : ℚ) : Bool × ℚ × Option Int :=
  if matchFound then
    if COOLDOWN_PERIOD ≤ now - last then (true, now, none)
    else (false, last, some (pyInt (COOLDOWN_PERIOD - (now - last))))
  else (false, last, none)

/-- The events printed/played by the alert step. -/
def alertEvents (a : Bool × ℚ × Option Int) : List Event :=
  if a.1 then [Event.audioPlayed]
  else
    match a.2.2 with
    | some r => [Event.cooldownActive r]
    | none => []

/-- The per-region loop of one cycle (modernScript.py lines 132-148):
`for i, region in enumerate(REGIONS, 1)`, starting index `i`.  Each list entry
is the outcome of `capture_region` followed by `compare_images`: `Except.ok`
carries the captured frame, `Except.error` any exception raised inside the
`try` block for that region, which is caught and printed, leaving
`match_found` untouched.  Returns the per-region events and `match_found`. -/
def scanRegions (resize : Resize) (ref : Img) :
    Nat → List (Except String Img) → List Event × Bool
  | _, [] => ([], false)
  | i, Except.ok img :: rest =>
      let s := compare_images resize img ref
      let r := scanRegions resize ref (i + 1) rest
      (Event.scored i s :: r.1, (decide (SIMILARITY_THRESHOLD ≤ s) || r.2))
  | i, Except.error _ :: rest =>
      let r := scanRegions resize ref (i + 1) rest
      (Event.regionError i :: r.1, r.2)

/-- The per-cycle input: one capture outcome per configured region, and the
value of `time.time()` at the alert check. -/
structure CycleInput where
  captures : List (Except String Img)
  now : ℚ

/-- One iteration of the `while True` loop body (modernScript.py lines
129-162): scan all regions, then run the alert step on `match_found`.
Returns the cycle's events and the updated `last_audio_time`. -/
def runCycle (resize : Resize) (ref : Img) (inp : CycleInput) (last : ℚ) :
    List Event × ℚ :=
  let scan := scanRegions resize ref 1 inp.captures
  let a := maybeAlert scan.2 inp.now last
  (scan.1 ++ alertEvents a, a.2.1)

/-- The poll loop over a finite prefix of cycles, threading `last_audio_time`. -/
def runCycles (resize : Resize) (ref : Img) :
    List CycleInput → ℚ → List Event × ℚ
  | [], last => ([], last)
  | c :: rest, last =>
      let r := runCycle resize ref c last
      let q := runCycles resize ref rest r.2
      (r.1 ++ q.1, q.2)

/-- `main()` (modernScript.py lines 107-165): load the reference inside a
`try` whose `except` prints an error and returns before the loop; on success
initialize `last_audio_time = 0` and run the poll loop.  Returns the run's
events and the final `last_audio_time`. -/
def mainModel (resize : Resize) (load : RefLoadOutcome)
    (cycles : List CycleInput) : List Event × ℚ :=
  match load with
  | RefLoadOutcome.ok ref => runCycles resize ref cycles 0
  | RefLoadOutcome.fileNotFoundError _ => ([Event.loadError], 0)
  | RefLoadOutcome.noneTypeAttributeError => ([Event.loadError], 0)

/-- `True` iff the event reports a region being captured/scored (successfully
or not) — used to state that the error path runs no region work. -/
def isRegionEvent : Event → Bool
  | Event.scored _ _ => true
  | Event.regionError _ => true
  | _ => false

/-- The score-level view of one cycle used by the worked example of the spec:
`match_found` is true iff some region's similarity reaches the threshold. -/
def matchFromScores (scores : List ℚ) : Bool :=
  scores.any (fun s => decide (SIMILARITY_THRESHOLD ≤ s))

/-- The alert state machine driven by per-cycle `(region scores, now)` pairs:
returns the list of `played` flags per cycle and the final timestamp. -/
def alertRun : List (List ℚ × ℚ) → ℚ → List Bool × ℚ
  | [], last => ([], last)
  | c :: rest, last =>
      let a := maybeAlert (matchFromScores c.1) c.2 last
      let r := alertRun rest a.2.1
      (a.1 :: r.1, r.2)

/-- All channel values of every pixel are within the 8-bit range `[0, 255]`. -/
def Channels255 (img : Img) : Prop :=
  ∀ row ∈ img, ∀ p ∈ row, p.1 ≤ 255 ∧ p.2.1 ≤ 255 ∧ p.2.2 ≤ 255

/-- A resize operation that maps 8-bit images to 8-bit images, as every
standard interpolation on uint8 data does (`cv2.resize` returns uint8 output
for uint8 input). -/
def ValidResize (resize : Resize) : Prop :=
  ∀ img tgt, Channels255 img → Channels255 (resize img tgt)

instance decidableChannels255 (img : Img) : Decidable (Channels255 img) :=
  inferInstanceAs
    (Decidable (∀ row ∈ img, ∀ p ∈ row, p.1 ≤ 255 ∧ p.2.1 ≤ 255 ∧ p.2.2 ≤ 255))

lemma flatten_zipWith_sum (f : Nat → Nat → ℚ) :
    ∀ g1 g2 : List (List Nat),
      ((List.zipWith (fun r1 r2 => List.zipWith f r1 r2) g1 g2).flatten).sum
        = (List.zipWith (fun r1 r2 => (List.zipWith f r1 r2).sum) g1 g2).sum
  | [], g2 => by cases g2 <;> simp
  | a :: g1, [] => by simp
  | a :: g1, b :: g2 => by
      simp [flatten_zipWith_sum f g1 g2]

lemma sqDiffRow_self (r : List Nat) : sqDiffRow r r = 0 := by
  unfold sqDiffRow
  rw [List.zipWith_same]
  simp

lemma sqDiffSum_self (g : GrayImg) : sqDiffSum g g = 0 := by
  unfold sqDiffSum
  rw [List.zipWith_same]
  simp [sqDiffRow_self]

lemma bgr2gray_le (p : Pixel) (h1 : p.1 ≤ 255) (h2 : p.2.1 ≤ 255)
    (h3 : p.2.2 ≤ 255) : bgr2gray p ≤ 255 := by
  unfold bgr2gray
  omega

lemma grayImg_le (img : Img) (h : Channels255 img) :
    ∀ row ∈ grayImg img, ∀ v ∈ row, v ≤ 255 := by
  intro row hrow v hv
  simp only [grayImg, List.mem_map] at hrow
  obtain ⟨r0, hr0, rfl⟩ := hrow
  simp only [List.mem_map] at hv
  obtain ⟨p, hp, rfl⟩ := hv
  obtain ⟨hb, hg, hr⟩ := h r0 hr0 p hp
  exact bgr2gray_le p hb hg hr

lemma sq_diff_le (a b : Nat) (ha : a ≤ 255) (hb : b ≤ 255) :
    ((a : ℚ) - (b : ℚ)) ^ 2 ≤ 65025 := by
  have ha' : (a : ℚ) ≤ 255 := by exact_mod_cast ha
  have hb' : (b : ℚ) ≤ 255 := by exact_mod_cast hb
  have ha0 : (0 : ℚ) ≤ (a : ℚ) := Nat.cast_nonneg a
  have hb0 : (0 : ℚ) ≤ (b : ℚ) := Nat.cast_nonneg b
  nlinarith

lemma sqDiffRow_nonneg : ∀ r1 r2 : List Nat, 0 ≤ sqDiffRow r1 r2
  | [], r2 => by cases r2 <;> simp [sqDiffRow]
  | a :: r1, [] => by simp [sqDiffRow]
  | a :: r1, b :: r2 => by
      have ih := sqDiffRow_nonneg r1 r2
      have hsq := sq_nonneg ((a : ℚ) - (b : ℚ))
      simp only [sqDiffRow, List.zipWith_cons_cons, List.sum_cons] at *
      linarith

lemma sqDiffRow_le : ∀ r1 r2 : List Nat, (∀ a ∈ r1, a ≤ 255) → (∀ b ∈ r2, b ≤ 255) →
    sqDiffRow r1 r2 ≤ 65025 * r1.length
  | [], r2 => by intro _ _; cases r2 <;> simp [sqDiffRow]
  | a :: r1, [] => by
      intro _ _
      simp [sqDiffRow]
      positivity
  | a :: r1, b :: r2 => by
      intro h1 h2
      have ih := sqDiffRow_le r1 r2 (fun x hx => h1 x (List.mem_cons_of_mem a hx))
        (fun x hx => h2 x (List.mem_cons_of_mem b hx))
      have hsq := sq_diff_le a b (h1 a (List.mem_cons_self a r1)) (h2 b (List.mem_cons_self b r2))
      simp only [sqDiffRow, List.zipWith_cons_cons, List.sum_cons, List.length_cons] at *
      push_cast
      linarith

lemma sqDiffSum_nonneg : ∀ g1 g2 : GrayImg, 0 ≤ sqDiffSum g1 g2
  | [], g2 => by cases g2 <;> simp [sqDiffSum]
  | r :: g1, [] => by simp [sqDiffSum]
  | r1 :: g1, r2 :: g2 => by
      have ih := sqDiffSum_nonneg g1 g2
      have hrow := sqDiffRow_nonneg r1 r2
      simp only [sqDiffSum, List.zipWith_cons_cons, List.sum_cons] at *
      linarith

lemma sqDiffSum_le : ∀ g1 g2 : GrayImg,
    (∀ row ∈ g1, ∀ v ∈ row, v ≤ 255) → (∀ row ∈ g2, ∀ v ∈ row, v ≤ 255) →
    sqDiffSum g1 g2 ≤ 65025 * pixelCount g1
  | [], g2 => by intro _ _; cases g2 <;> simp [sqDiffSum, pixelCount]
  | r :: g1, [] => by
      intro _ _
      have h0 : sqDiffSum (r :: g1) [] = 0 := by simp [sqDiffSum]
      rw [h0]
      positivity
  | r1 :: g1, r2 :: g2 => by
      intro h1 h2
      have ih := sqDiffSum_le g1 g2 (fun x hx => h1 x (List.mem_cons_of_mem r1 hx))
        (fun x hx => h2 x (List.mem_cons_of_mem r2 hx))
      have hrow := sqDiffRow_le r1 r2 (h1 r1 (List.mem_cons_self r1 g1)) (h2 r2 (List.mem_cons_self r2 g2))
      simp only [sqDiffSum, List.zipWith_cons_cons, List.sum_cons, pixelCount,
        List.map_cons] at *
      push_cast at *
      linarith

lemma mse_nonneg (g1 g2 : GrayImg) : 0 ≤ mse g1 g2 :=
  div_nonneg (sqDiffSum_nonneg g1 g2) (Nat.cast_nonneg (pixelCount g1))

lemma mse_le_65025 (g1 g2 : GrayImg)
    (h1 : ∀ row ∈ g1, ∀ v ∈ row, v ≤ 255) (h2 : ∀ row ∈ g2, ∀ v ∈ row, v ≤ 255) :
    mse g1 g2 ≤ 65025 := by
  unfold mse
  rcases Nat.eq_zero_or_pos (pixelCount g1) with h0 | hpos
  · rw [h0]
    simp
  · rw [div_le_iff₀ (by exact_mod_cast hpos)]
    exact sqDiffSum_le g1 g2 h1 h2

lemma compare_images_le_one (resize : Resize) (img1 img2 : Img) :
    compare_images resize img1 img2 ≤ 1 := by
  have h := mse_nonneg (grayImg img1)
    (grayImg (if shape img1 = shape img2 then img2 else resize img2 (shape img1)))
  have h65 : (0 : ℚ) ≤ 65025 := by norm_num
  simp only [compare_images]
  linarith [div_nonneg h h65]

lemma compare_images_nonneg (resize : Resize) (img1 img2 : Img)
    (hR : ValidResize resize) (h1 : Channels255 img1) (h2 : Channels255 img2) :
    0 ≤ compare_images resize img1 img2 := by
  have hch : Channels255 (if shape img1 = shape img2 then img2 else resize img2 (shape img1)) := by
    split
    · exact h2
    · exact hR img2 (shape img1) h2
  have hm := mse_le_65025 (grayImg img1)
    (grayImg (if shape img1 = shape img2 then img2 else resize img2 (shape img1)))
    (grayImg_le img1 h1) (grayImg_le _ hch)
  simp only [compare_images]
  have : mse (grayImg img1)
      (grayImg (if shape img1 = shape img2 then img2 else resize img2 (shape img1))) / 65025
      ≤ 1 := by
    rw [div_le_one (by norm_num)]
    linarith
  linarith

/-- C1: `compare_images` returns `1 - mean((gray_candidate - gray_reference)^2) / 65025`
where, when the shapes differ, the reference (the second argument, which is the
reference image at the call site on line 140) is resized to the candidate's
dimensions; this equals the spec's formula `scorerSpec` for every resize
operation and every pair of grids, and on shape mismatch the resized grid is
`resize ref (shape cand)` — the candidate is never resized. -/
theorem claim_C1_scorer_formula (resize : Resize) (cand ref : Img) :
    compare_images resize cand ref = scorerSpec resize cand ref ∧
    (shape cand ≠ shape ref →
      compare_images resize cand ref =
        1 - mse (grayImg cand) (grayImg (resize ref (shape cand))) / 65025) := by
  constructor
  · simp only [compare_images, scorerSpec, mse, sqDiffSum, sqDiffRow,
      flatten_zipWith_sum]
    rfl
  · intro h
    simp only [compare_images, if_neg h]

/-- C1 witness: at concrete mismatched shapes the resized reference is used. -/
theorem claim_C1_scorer_formula_witness :
    shape [[(0, 0, 0)]] ≠ shape [[(0, 0, 0)], [(0, 0, 0)]] ∧
    compare_images (fun _ _ => [[(255, 255, 255)]]) [[(0, 0, 0)]] [[(0, 0, 0)], [(0, 0, 0)]]
      = 1 - mse (grayImg [[(0, 0, 0)]])
          (grayImg ((fun (_ : Img) (_ : Nat × Nat) => [[(255, 255, 255)]])
            [[(0, 0, 0)], [(0, 0, 0)]] (shape [[(0, 0, 0)]]))) / 65025 :=
  ⟨by decide,
   (claim_C1_scorer_formula (fun _ _ => [[(255, 255, 255)]]) [[(0, 0, 0)]]
      [[(0, 0, 0)], [(0, 0, 0)]]).2 (by decide)⟩

/-- C2: the alert step plays audio and updates `last_audio_time` exactly when a
match occurred and `now - last >= COOLDOWN_PERIOD`; otherwise it reports the
remaining seconds `int(COOLDOWN_PERIOD - (now - last))`, does not play, and
leaves the timestamp unchanged; with the startup sentinel `last = 0` the first
qualifying match fires (wall-clock `now` being at least the cooldown), and a
match at exactly `now - last = COOLDOWN_PERIOD` fires again. -/
theorem claim_C2_alert_cooldown (now last : ℚ) :
    (COOLDOWN_PERIOD ≤ now - last → maybeAlert true now last = (true, now, none)) ∧
    (now - last < COOLDOWN_PERIOD →
      maybeAlert true now last
        = (false, last, some (pyInt (COOLDOWN_PERIOD - (now - last))))) ∧
    (COOLDOWN_PERIOD ≤ now → maybeAlert true now 0 = (true, now, none)) ∧
    (now - last = COOLDOWN_PERIOD → maybeAlert true now last = (true, now, none)) := by
  refine ⟨fun h => ?_, fun h => ?_, fun h => ?_, fun h => ?_⟩
  · simp [maybeAlert, h]
  · simp [maybeAlert, not_le.mpr h]
  · simp [maybeAlert, h]
  · simp [maybeAlert, h]

/-- C2 witness: at `now = 100`, the sentinel `last = 0` fires; at `last = 85`
(15 seconds after the last alert) playback is suppressed with 5 seconds
remaining. -/
theorem claim_C2_alert_cooldown_witness :
    maybeAlert true 100 0 = (true, 100, none) ∧
    maybeAlert true 100 85 = (false, 85, some 5) := by
  constructor
  · exact (claim_C2_alert_cooldown 100 0).1 (by norm_num [COOLDOWN_PERIOD])
  · have h := (claim_C2_alert_cooldown 100 85).2.1 (by norm_num [COOLDOWN_PERIOD])
    rw [h]
    have h5 : COOLDOWN_PERIOD - ((100 : ℚ) - 85) = 5 := by norm_num [COOLDOWN_PERIOD]
    rw [h5]
    have hp : pyInt 5 = 5 := by decide
    rw [hp]

/-- C5: within one cycle the per-region loop isolates failures: the events are
exactly one per region in order — `scored i s` on success, `regionError i` on a
caught capture/score exception — so a failure on one region never removes or
changes another region's processing and the cycle is not aborted; and
`match_found` is the disjunction over the successful regions' threshold tests,
a failed region counting as no match. -/
theorem claim_C5_region_isolation (resize : Resize) (ref : Img) (i : Nat)
    (cs : List (Except String Img)) :
    (scanRegions resize ref i cs).1
      = (cs.enumFrom i).map (fun ic =>
          match ic.2 with
          | Except.ok img => Event.scored ic.1 (compare_images resize img ref)
          | Except.error _ => Event.regionError ic.1) ∧
    (scanRegions resize ref i cs).2
      = cs.any (fun c =>
          match c with
          | Except.ok img => decide (SIMILARITY_THRESHOLD ≤ compare_images resize img ref)
          | Except.error _ => false) := by
  induction cs generalizing i with
  | nil => simp [scanRegions, List.enumFrom]
  | cons c rest ih =>
      cases c with
      | ok img =>
          simp [scanRegions, List.enumFrom, List.any_cons, (ih (i + 1)).1, (ih (i + 1)).2]
      | error e =>
          simp [scanRegions, List.enumFrom, List.any_cons, (ih (i + 1)).1, (ih (i + 1)).2]

/-- C6: when the reference image file is absent, `main` reports the load error
and returns before the poll loop: the whole run's trace is exactly the single
error report, containing no region capture/score event and no audio playback,
whatever cycles would have followed. -/
theorem claim_C6_missing_reference (resize : Resize) (msg : String)
    (cycles : List CycleInput) :
    mainModel resize (RefLoadOutcome.fileNotFoundError msg) cycles
      = ([Event.loadError], 0) ∧
    ((mainModel resize (RefLoadOutcome.fileNotFoundError msg) cycles).1.any
        isRegionEvent) = false ∧
    ((mainModel resize (RefLoadOutcome.fileNotFoundError msg) cycles).1.contains
        Event.audioPlayed) = false := by
  refine ⟨rfl, rfl, rfl⟩

/-- C8: scoring any grid against itself yields exactly 1 (the shapes agree, so
no resize happens, and the mean squared difference is 0); the grid is assumed
nonempty since `np.mean` of an empty array is not a number. -/
theorem claim_C8_self_similarity (resize : Resize) (g : Img)
    (_hg : 0 < pixelCount (grayImg g)) :
    compare_images resize g g = 1 := by
  have hs : sqDiffSum (grayImg g) (grayImg g) = 0 := sqDiffSum_self (grayImg g)
  simp [compare_images, mse, hs]

/-- C8 witness: a concrete 1×1 grid scored against itself gives 1. -/
theorem claim_C8_self_similarity_witness :
    0 < pixelCount (grayImg [[(1, 2, 3)]]) ∧
    compare_images (fun i _ => i) [[(1, 2, 3)]] [[(1, 2, 3)]] = 1 :=
  ⟨by decide, claim_C8_self_similarity (fun i _ => i) [[(1, 2, 3)]] (by decide)⟩

/-- C9: the loader raises `FileNotFoundError` exactly when the file is absent;
when the file exists but `cv2.imread` returns `None` (undecodable image), the
unguarded `img.shape` dereference raises the `NoneType` attribute error
instead. -/
theorem claim_C9_loader_errors (ex : Bool) (res : Option RawImg) :
    ((∃ m, load_reference_image ex res = RefLoadOutcome.fileNotFoundError m)
        ↔ ex = false) ∧
    load_reference_image true none = RefLoadOutcome.noneTypeAttributeError := by
  constructor
  · constructor
    · rintro ⟨m, hm⟩
      cases ex
      · rfl
      · cases res <;> simp [load_reference_image] at hm
    · intro h
      subst h
      exact ⟨_, rfl⟩
  · rfl

/-- C9 witness: an absent file produces `FileNotFoundError`; an existing but
undecodable file produces the `NoneType` attribute error. -/
theorem claim_C9_loader_errors_witness :
    (∃ m, load_reference_image false none = RefLoadOutcome.fileNotFoundError m) ∧
    load_reference_image true none = RefLoadOutcome.noneTypeAttributeError :=
  ⟨(claim_C9_loader_errors false none).1.mpr rfl, (claim_C9_loader_errors false none).2⟩

/-- C10: the Linux capture backend raises (`RuntimeError`, the spec's
`CaptureError`) exactly when the external `grim` process exits non-zero; on a
zero exit it returns the decode result unchanged, so undecodable stdout bytes
yield `None` rather than an exception, deferring the failure to the per-region
handler. -/
theorem claim_C10_linux_capture (imdecode : List Nat → Option Img)
    (res : SubprocResult) :
    ((∃ m, capture_region_linux imdecode res = Except.error m) ↔ res.returncode ≠ 0) ∧
    (res.returncode = 0 →
      capture_region_linux imdecode res = Except.ok (imdecode res.stdout)) ∧
    (res.returncode = 0 → imdecode res.stdout = none →
      capture_region_linux imdecode res = Except.ok none) := by
  by_cases h : res.returncode = 0
  · refine ⟨?_, fun _ => by simp [capture_region_linux, h], fun _ hd => ?_⟩
    · simp [capture_region_linux, h]
    · simp [capture_region_linux, h, hd]
  · refine ⟨?_, fun h0 => absurd h0 h, fun h0 => absurd h0 h⟩
    simp [capture_region_linux, h]

/-- C10 witness: exit status 1 raises; exit status 0 with undecodable bytes
returns `None` without raising. -/
theorem claim_C10_linux_capture_witness :
    (∃ m, capture_region_linux (fun _ => none) ⟨1, [], ""⟩ = Except.error m) ∧
    capture_region_linux (fun _ => none) ⟨0, [], ""⟩ = Except.ok none :=
  ⟨(claim_C10_linux_capture (fun _ => none) ⟨1, [], ""⟩).1.mpr (by decide),
   (claim_C10_linux_capture (fun _ => none) ⟨0, [], ""⟩).2.2 rfl rfl⟩

lemma maybeAlert_last_cases (m : Bool) (now last : ℚ) :
    (maybeAlert m now last).2.1 = last ∨
      ((maybeAlert m now last).2.1 = now ∧ last + COOLDOWN_PERIOD ≤ now) := by
  cases m with
  | false => left; rfl
  | true =>
      by_cases h : COOLDOWN_PERIOD ≤ now - last
      · right
        constructor
        · simp [maybeAlert, h]
        · linarith
      · left
        simp [maybeAlert, h]

lemma maybeAlert_last_le (m : Bool) (now last : ℚ) :
    last ≤ (maybeAlert m now last).2.1 := by
  rcases maybeAlert_last_cases m now last with h | ⟨h, hle⟩
  · rw [h]
  · rw [h]
    have hc : (0 : ℚ) ≤ COOLDOWN_PERIOD := by norm_num [COOLDOWN_PERIOD]
    linarith

lemma maybeAlert_strict (m : Bool) (now last : ℚ)
    (h : (maybeAlert m now last).2.1 ≠ last) :
    last < (maybeAlert m now last).2.1 := by
  rcases maybeAlert_last_cases m now last with h0 | ⟨h1, h2⟩
  · exact absurd h0 h
  · rw [h1]
    have hc : (0 : ℚ) < COOLDOWN_PERIOD := by norm_num [COOLDOWN_PERIOD]
    linarith

lemma runCycle_last_le (resize : Resize) (ref : Img) (c : CycleInput) (last : ℚ) :
    last ≤ (runCycle resize ref c last).2 :=
  maybeAlert_last_le _ _ _

lemma runCycles_last_le (resize : Resize) (ref : Img) :
    ∀ (cycles : List CycleInput) (last0 : ℚ),
      last0 ≤ (runCycles resize ref cycles last0).2
  | [], _ => le_refl _
  | c :: rest, last0 =>
      le_trans (runCycle_last_le resize ref c last0)
        (runCycles_last_le resize ref rest (runCycle resize ref c last0).2)

/-- C7: `last_audio_time` is updated only by the alert step, and then only to
the current time, which exceeds the old value by at least the (positive)
cooldown; hence every update is a strict increase, the timestamp is
non-decreasing over any run of the loop, and a run of `main` starting from the
sentinel 0 keeps it non-negative. -/
theorem claim_C7_cooldown_monotone :
    (∀ (m : Bool) (now last : ℚ),
        (maybeAlert m now last).2.1 = last ∨
          ((maybeAlert m now last).2.1 = now ∧ last + COOLDOWN_PERIOD ≤ now)) ∧
    (∀ (m : Bool) (now last : ℚ),
        (maybeAlert m now last).2.1 ≠ last → last < (maybeAlert m now last).2.1) ∧
    (∀ (resize : Resize) (ref : Img) (cycles : List CycleInput) (last0 : ℚ),
        last0 ≤ (runCycles resize ref cycles last0).2) ∧
    (∀ (resize : Resize) (ref : Img) (cycles : List CycleInput),
        0 ≤ (mainModel resize (RefLoadOutcome.ok ref) cycles).2) :=
  ⟨maybeAlert_last_cases, maybeAlert_strict,
   fun resize ref cycles last0 => runCycles_last_le resize ref cycles last0,
   fun resize ref cycles => runCycles_last_le resize ref cycles 0⟩

/-- C7 witness: a concrete update (match at time 100 from the sentinel 0)
changes the timestamp, and the change is a strict increase. -/
theorem claim_C7_cooldown_monotone_witness :
    (maybeAlert true 100 0).2.1 ≠ 0 ∧ (0 : ℚ) < (maybeAlert true 100 0).2.1 := by
  have hne : (maybeAlert true 100 0).2.1 ≠ 0 := by
    norm_num [maybeAlert, COOLDOWN_PERIOD]
  exact ⟨hne, claim_C7_cooldown_monotone.2.1 true 100 0 hne⟩

/-- C3 counterexample: at the concrete times 100, 102, 104, 106, 108 (a fixed
2-second cycle interval) with the score sequence of the spec's example and the
sentinel timestamp 0, the alert fires at cycle 1 only: cycle 4 happens a mere
6 seconds after cycle 1's alert, so the 20-second cooldown suppresses it, and
the fired pattern is not the claimed `[true, false, false, true, false]`. -/
theorem claim_C3_example_counterexample :
    (alertRun [([0.99], 100), ([0.5], 102), ([0.985], 104),
               ([0.99], 106), ([0.99], 108)] 0).1
        = [true, false, false, false, false] ∧
    ¬ ((alertRun [([0.99], 100), ([0.5], 102), ([0.985], 104),
                  ([0.99], 106), ([0.99], 108)] 0).1
        = [true, false, false, true, false]) := by
  have m99 : matchFromScores [0.99] = true := by
    simp only [matchFromScores, List.any_cons, List.any_nil, Bool.or_false,
      decide_eq_true_eq]
    norm_num [SIMILARITY_THRESHOLD]
  have m5 : matchFromScores [0.5] = false := by
    simp only [matchFromScores, List.any_cons, List.any_nil, Bool.or_false,
      decide_eq_false_iff_not]
    norm_num [SIMILARITY_THRESHOLD]
  have m985 : matchFromScores [0.985] = true := by
    simp only [matchFromScores, List.any_cons, List.any_nil, Bool.or_false,
      decide_eq_true_eq]
    norm_num [SIMILARITY_THRESHOLD]
  have a1 : maybeAlert true 100 0 = (true, 100, none) := by
    have hc : COOLDOWN_PERIOD ≤ (100 : ℚ) := by norm_num [COOLDOWN_PERIOD]
    simp [maybeAlert, hc]
  have a2 : maybeAlert false 102 100 = (false, 100, none) := by
    simp [maybeAlert]
  have a3 : maybeAlert true 104 100
      = (false, 100, some (pyInt (COOLDOWN_PERIOD - (104 - 100)))) := by
    have hc : ¬ (COOLDOWN_PERIOD ≤ (104 : ℚ) - 100) := by norm_num [COOLDOWN_PERIOD]
    simp [maybeAlert, hc]
  have a4 : maybeAlert true 106 100
      = (false, 100, some (pyInt (COOLDOWN_PERIOD - (106 - 100)))) := by
    have hc : ¬ (COOLDOWN_PERIOD ≤ (106 : ℚ) - 100) := by norm_num [COOLDOWN_PERIOD]
    simp [maybeAlert, hc]
  have a5 : maybeAlert true 108 100
      = (false, 100, some (pyInt (COOLDOWN_PERIOD - (108 - 100)))) := by
    have hc : ¬ (COOLDOWN_PERIOD ≤ (108 : ℚ) - 100) := by norm_num [COOLDOWN_PERIOD]
    simp [maybeAlert, hc]
  have hrun : (alertRun [([0.99], 100), ([0.5], 102), ([0.985], 104),
                  ([0.99], 106), ([0.99], 108)] 0).1
      = [true, false, false, false, false] := by
    simp only [alertRun, m99, m5, m985, a1, a2, a3, a4, a5]
  refine ⟨hrun, ?_⟩
  rw [hrun]
  simp

/-- C3 amended: with threshold 0.98, cooldown 20 s and cycle interval 2 s, the
score sequence [0.99, 0.5, 0.985, 0.99, 0.99] makes the alert fire at cycle 1
only; cycles 3, 4 and 5 match but are suppressed, being 4, 6 and 8 seconds
after cycle 1's alert, short of the 20-second cooldown. -/
theorem claim_C3_example_amended (t : ℚ) (h : COOLDOWN_PERIOD ≤ t) :
    (alertRun [([0.99], t), ([0.5], t + 2), ([0.985], t + 4),
               ([0.99], t + 6), ([0.99], t + 8)] 0).1
      = [true, false, false, false, false] := by
  have m99 : matchFromScores [0.99] = true := by
    simp only [matchFromScores, List.any_cons, List.any_nil, Bool.or_false,
      decide_eq_true_eq]
    norm_num [SIMILARITY_THRESHOLD]
  have m5 : matchFromScores [0.5] = false := by
    simp only [matchFromScores, List.any_cons, List.any_nil, Bool.or_false,
      decide_eq_false_iff_not]
    norm_num [SIMILARITY_THRESHOLD]
  have m985 : matchFromScores [0.985] = true := by
    simp only [matchFromScores, List.any_cons, List.any_nil, Bool.or_false,
      decide_eq_true_eq]
    norm_num [SIMILARITY_THRESHOLD]
  have a1 : maybeAlert true t 0 = (true, t, none) := by
    simp [maybeAlert, h]
  have a2 : maybeAlert false (t + 2) t = (false, t, none) := by
    simp [maybeAlert]
  have a3 : maybeAlert true (t + 4) t
      = (false, t, some (pyInt (COOLDOWN_PERIOD - (t + 4 - t)))) := by
    have hlt : ¬ (COOLDOWN_PERIOD ≤ t + 4 - t) := by norm_num [COOLDOWN_PERIOD]
    simp [maybeAlert, hlt]
    all_goals norm_num [COOLDOWN_PERIOD]
  have a4 : maybeAlert true (t + 6) t
      = (false, t, some (pyInt (COOLDOWN_PERIOD - (t + 6 - t)))) := by
    have hlt : ¬ (COOLDOWN_PERIOD ≤ t + 6 - t) := by norm_num [COOLDOWN_PERIOD]
    simp [maybeAlert, hlt]
    all_goals norm_num [COOLDOWN_PERIOD]
  have a5 : maybeAlert true (t + 8) t
      = (false, t, some (pyInt (COOLDOWN_PERIOD - (t + 8 - t)))) := by
    have hlt : ¬ (COOLDOWN_PERIOD ≤ t + 8 - t) := by norm_num [COOLDOWN_PERIOD]
    simp [maybeAlert, hlt]
    all_goals norm_num [COOLDOWN_PERIOD]
  simp only [alertRun, m99, m5, m985, a1, a2, a3, a4, a5]

/-- C3 witness: the amended schedule at start time 100. -/
theorem claim_C3_example_amended_witness :
    COOLDOWN_PERIOD ≤ (100 : ℚ) ∧
    (alertRun [([0.99], 100), ([0.5], 100 + 2), ([0.985], 100 + 4),
               ([0.99], 100 + 6), ([0.99], 100 + 8)] 0).1
      = [true, false, false, false, false] :=
  ⟨by norm_num [COOLDOWN_PERIOD],
   claim_C3_example_amended 100 (by norm_num [COOLDOWN_PERIOD])⟩

lemma compare_black_white :
    compare_images (fun i _ => i) [[(0, 0, 0)]] [[(255, 255, 255)]] = 0 := by
  norm_num [compare_images, shape, height, width, grayImg, bgr2gray, mse,
    sqDiffSum, sqDiffRow, pixelCount]

/-- C4 counterexample: the claimed strictly negative score is impossible — for
8-bit grids (and any range-preserving resize, as `cv2.resize` is on uint8
data) both grayscales lie in `[0, 255]`, so the mean squared difference is at
most `255^2 = 65025` and the similarity never drops below 0. -/
theorem claim_C4_negative_score_counterexample :
    ¬ ∃ (resize : Resize) (img1 img2 : Img),
        ValidResize resize ∧ Channels255 img1 ∧ Channels255 img2 ∧
        0 < pixelCount (grayImg img1) ∧ compare_images resize img1 img2 < 0 := by
  rintro ⟨resize, i1, i2, hR, h1, h2, -, hneg⟩
  exact absurd (compare_images_nonneg resize i1 i2 hR h1 h2) (not_le.mpr hneg)

/-- C4 amended: the score is indeed never clamped, but it never needs to be:
for every pair of 8-bit pixel grids (with a range-preserving resize) it lies
in `[0, 1]`, and the lower bound 0 is attained by an all-black candidate
against an all-white reference. -/
theorem claim_C4_score_range (resize : Resize) (img1 img2 : Img)
    (hR : ValidResize resize) (h1 : Channels255 img1) (h2 : Channels255 img2)
    (_hne : 0 < pixelCount (grayImg img1)) :
    (0 ≤ compare_images resize img1 img2 ∧ compare_images resize img1 img2 ≤ 1) ∧
    compare_images (fun i _ => i) [[(0, 0, 0)]] [[(255, 255, 255)]] = 0 :=
  ⟨⟨compare_images_nonneg resize img1 img2 hR h1 h2,
    compare_images_le_one resize img1 img2⟩, compare_black_white⟩

/-- C4 witness: a concrete valid pair (all-black vs all-white 1×1 grids, with
the identity as resize) whose score is exactly the extreme 0 of `[0, 1]`. -/
theorem claim_C4_score_range_witness :
    ValidResize (fun i _ => i) ∧ Channels255 [[(0, 0, 0)]] ∧
    Channels255 [[(255, 255, 255)]] ∧ 0 < pixelCount (grayImg [[(0, 0, 0)]]) ∧
    ((0 ≤ compare_images (fun i _ => i) [[(0, 0, 0)]] [[(255, 255, 255)]] ∧
      compare_images (fun i _ => i) [[(0, 0, 0)]] [[(255, 255, 255)]] ≤ 1) ∧
     compare_images (fun i _ => i) [[(0, 0, 0)]] [[(255, 255, 255)]] = 0) :=
  ⟨fun _ _ hv => hv, by decide, by decide, by decide,
   claim_C4_score_range (fun i _ => i) [[(0, 0, 0)]] [[(255, 255, 255)]]
     (fun _ _ hv => hv) (by decide) (by decide) (by decide)⟩

end ModernScript
